import Mathlib

/-!
Verification development for the parcel volume lifecycle manager
(pkg/kubernetes/volume.go) and the catalog service client
(pkg/catalog/catalogsvc.go).

The Go code is shallowly embedded: Kubernetes API objects become plain
structures holding the fields the manager reads and writes; the
control-plane client (k8s.io/client-go) is external, so each manager
operation is parametrised by the outcome of its control-plane calls
(either an explicit fault schedule, or the object lists the control
plane would return); `int64` values are `Int` with explicit two-power
range checks where the Go code range-checks.
-/

namespace Parcel

/-- Go errors are values; we model them by their message string. -/
abbrev GoErr := String

/-- Dataset, from the external catalog-service package
(github.com/iychoi/parcel-catalog-service/pkg/dataset): numeric ID
(`int64`), name, source URL, free-text description. -/
structure Dataset where
  id : Int
  name : String
  url : String
  description : String
deriving DecidableEq, Repr

/-- Label maps (Go `map[string]string`) are modelled as association
lists; `lookupLabel` is Go's comma-ok map indexing. -/
def lookupLabel (labels : List (String × String)) (key : String) : Option String :=
  (labels.find? (fun kv => kv.1 == key)).map (fun kv => kv.2)

/-- Go's plain map indexing `m[k]`, which yields the zero value `""`
when the key is absent. -/
def lookupLabelD (labels : List (String × String)) (key : String) : String :=
  (lookupLabel labels key).getD ""

/-- PersistentVolume: the fields of the k8s object that volume.go
reads or writes (metadata name and labels, and the spec fields set by
`makePersistentVolume`). -/
structure PersistentVolume where
  name : String
  labels : List (String × String)
  capacity : String
  accessModes : List String
  reclaimPolicy : String
  storageClassName : String
  csiDriver : String
  csiVolumeHandle : String
  csiVolumeAttributes : List (String × String)
deriving DecidableEq, Repr

/-- PersistentVolumeClaim: the fields of the k8s object that volume.go
reads or writes. -/
structure PersistentVolumeClaim where
  name : String
  labels : List (String × String)
  accessModes : List String
  storageClassName : String
  selectorMatchLabels : List (String × String)
  requestStorage : String
deriving DecidableEq, Repr

/-- StorageClass: name and provisioner, the two fields
`makeStorageClass` sets. -/
structure StorageClass where
  name : String
  provisioner : String
deriving DecidableEq, Repr

/-- DatasetMount holds a volume mapping (volume.go line 49). -/
structure DatasetMount where
  dataset : Dataset
  persistentVolume : PersistentVolume
  persistentVolumeClaim : PersistentVolumeClaim
deriving DecidableEq, Repr

/-- Constant `csiDriverName` (volume.go line 41). -/
def csiDriverName : String := "parcel.csi.iychoi"

/-- Constant `csiDriverStorageClassName` (volume.go line 42). -/
def csiDriverStorageClassName : String := "parcel-sc"

/-! ## strconv: FormatInt / ParseInt (base 10, bit size 64)

volume.go uses `strconv.FormatInt(ds.ID, 10)` to encode the dataset ID
into a label and `strconv.ParseInt(s, 10, 64)` to decode it. -/

/-- The character for a decimal digit value. -/
def digitChar (d : Nat) : Char := Char.ofNat (48 + d)

/-- Decimal digit test, as Go's parser accepts for base 10:
exactly the characters between 0 and 9. -/
def isDigitChar (c : Char) : Bool := 48 ≤ c.toNat && c.toNat ≤ 57

/-- The value of a decimal digit character. -/
def digitVal (c : Char) : Nat := c.toNat - 48

/-- Decimal rendering of a natural number, most significant digit
first; Go renders 0 as "0". -/
def goFormatNat (n : Nat) : List Char :=
  if h : n < 10 then [digitChar n]
  else
    have : n / 10 < n := Nat.div_lt_self (by omega) (by norm_num)
    goFormatNat (n / 10) ++ [digitChar (n % 10)]

/-- Go `strconv.FormatInt(i, 10)`: minus sign for negatives, then the
decimal digits of the absolute value. -/
def goFormatInt64 (i : Int) : String :=
  if i < 0 then ⟨'-' :: goFormatNat i.natAbs⟩ else ⟨goFormatNat i.toNat⟩

/-- The accumulation loop of Go's `strconv.ParseUint` for base 10. -/
def digitsVal (cs : List Char) : Nat :=
  cs.foldl (fun acc c => acc * 10 + digitVal c) 0

/-- Parse a nonempty all-digit run to its value (the digit loop of
Go's `strconv.ParseUint` for base 10). -/
def parseDigits (cs : List Char) : Option Nat :=
  if cs.isEmpty then none
  else if cs.all isDigitChar then some (digitsVal cs)
  else none

/-- Go `strconv.ParseInt(s, 10, 64)`: optional single sign, then a
nonempty digit run; fails on empty input, a stray character, or a
value outside the signed 64-bit range. -/
def goParseInt64 (s : String) : Except GoErr Int :=
  match s.data with
  | [] => .error "invalid syntax"
  | c :: rest =>
    let neg : Bool := c == '-'
    let digitsPart : List Char := if c == '-' || c == '+' then rest else c :: rest
    match parseDigits digitsPart with
    | none => .error "invalid syntax"
    | some n =>
      if neg then
        if 2 ^ 63 < n then .error "value out of range"
        else .ok (-(n : Int))
      else
        if 2 ^ 63 ≤ n then .error "value out of range"
        else .ok (n : Int)

/-! ## Scheme resolver -/

/-- ASCII lowering of one character, the fragment of Go
`strings.ToLower` relevant to URL schemes (net/url restricts a parsed
scheme to ASCII letters, digits, and plus, minus, dot). -/
def goToLowerChar (c : Char) : Char :=
  if 65 ≤ c.toNat && c.toNat ≤ 90 then Char.ofNat (c.toNat + 32) else c

/-- Go `strings.ToLower` on the ASCII strings at issue here. -/
def goToLower (s : String) : String := ⟨s.data.map goToLowerChar⟩

/-- Source `getClient` (volume.go lines 271 to 293): parse the dataset URL,
lower-case its scheme, and map it to a driver identifier. `url.Parse`
together with reading `u.Scheme` is Go standard library code, external
to this repository, so it enters as the parameter `parseScheme`. -/
def getClient (parseScheme : String → Except GoErr String) (ds : Dataset) :
    Except GoErr String :=
  match parseScheme ds.url with
  | .error e => .error ("could not parse URL: " ++ e)
  | .ok uScheme =>
    let scheme := goToLower uScheme
    if scheme = "webdav" then .ok "webdav"
    else if scheme = "davfs" then .ok "webdav"
    else if scheme = "http" then .ok "webdav"
    else if scheme = "https" then .ok "webdav"
    else if scheme = "irods" then .ok "irodsfuse"
    else .error ("unknown scheme - " ++ scheme)

/-! ## Identity and label codec -/

/-- Source `makeLabels` (volume.go lines 295 to 302). -/
def makeLabels (ds : Dataset) (volumeName : String) : List (String × String) :=
  [("volume-name", volumeName),
   ("dataset-id", goFormatInt64 ds.id),
   ("dataset-name", ds.name)]

/-- Source `checkPersistentVolumeName` (volume.go lines 304 to 306):
`strings.HasPrefix(pv.Name, "parcel-pv-")`. -/
def checkPersistentVolumeName (pv : PersistentVolume) : Bool :=
  "parcel-pv-".data.isPrefixOf pv.name.data

/-- Go alphanumeric class `[a-zA-Z0-9]`, the complement of the
character class stripped by `makePersistentVolumeName`. -/
def isGoAlnum (c : Char) : Bool :=
  (97 ≤ c.toNat && c.toNat ≤ 122) || (65 ≤ c.toNat && c.toNat ≤ 90)
    || (48 ≤ c.toNat && c.toNat ≤ 57)

/-- The regexp replacement in `makePersistentVolumeName`:
`ReplaceAllString` of `[^a-zA-Z0-9]+` with the empty string removes
every non-alphanumeric character, hence a filter. -/
def sanitizeDatasetName (s : String) : String := ⟨s.data.filter isGoAlnum⟩

/-- Source `makePersistentVolumeName` (volume.go lines 308 to 318). The
random suffix comes from the external shortuuid library, so it enters
as the parameter `uuid`. -/
def makePersistentVolumeName (ds : Dataset) (uuid : String) : String :=
  "parcel-pv-" ++ sanitizeDatasetName ds.name ++ "-" ++ uuid

/-- Modelled from the spec: the shortuuid suffix alphabet, a short
URL-safe random-ID space (the library's base-57 alphabet, alphanumerics
with look-alike characters removed); the library itself is external to
this repository. -/
def shortuuidAlphabet : List Char :=
  "23456789ABCDEFGHJKLMNPQRSTUVWXYZabcdefghijkmnopqrstuvwxyz".data

/-- Source `makePersistentVolumeClaimName` (volume.go lines 320 to 322). -/
def makePersistentVolumeClaimName (volumeName : String) : String :=
  volumeName ++ "-claim"

/-- Source `makePersistentVolumeHandleName` (volume.go lines 324 to 326). -/
def makePersistentVolumeHandleName (volumeName : String) : String :=
  volumeName ++ "-handle"

/-! ## Object builders -/

/-- Source `makeStorageClass` (volume.go lines 328 to 335); always succeeds
but is declared fallible in the source. -/
def makeStorageClass : Except GoErr StorageClass :=
  .ok { name := csiDriverStorageClassName, provisioner := csiDriverName }

/-- Source `makePersistentVolume` (volume.go lines 337 to 374). -/
def makePersistentVolume (parseScheme : String → Except GoErr String)
    (ds : Dataset) (volumeName : String) : Except GoErr PersistentVolume :=
  match getClient parseScheme ds with
  | .error e => .error e
  | .ok client =>
    .ok { name := volumeName
          labels := makeLabels ds volumeName
          capacity := "5Gi"
          accessModes := ["ReadWriteMany"]
          reclaimPolicy := "Retain"
          storageClassName := csiDriverStorageClassName
          csiDriver := csiDriverName
          csiVolumeHandle := makePersistentVolumeHandleName volumeName
          csiVolumeAttributes :=
            [("client", client), ("url", ds.url), ("user", "anonymous")] }

/-- Source `makePersistentVolumeClaim` (volume.go lines 376 to 400); always
succeeds but is declared fallible in the source. -/
def makePersistentVolumeClaim (ds : Dataset) (volumeName : String) :
    Except GoErr PersistentVolumeClaim :=
  .ok { name := makePersistentVolumeClaimName volumeName
        labels := makeLabels ds volumeName
        accessModes := ["ReadWriteMany"]
        storageClassName := csiDriverStorageClassName
        selectorMatchLabels := makeLabels ds volumeName
        requestStorage := "5Gi" }

/-! ## Volume lifecycle manager

The `clientset` handle talks to the external control plane; each
operation below is parametrised by what the control plane does: either
the object lists it returns (for list-driven operations, taken
fault-free where the claim assumes successful calls) or an explicit
fault schedule / per-call result functions. -/

/-- Fault schedule for `CreateStorageClass`: an error the List call
fails with, and an error the Create call fails with, if any. -/
structure SCFaults where
  listSC : Option GoErr
  createSC : Option GoErr
deriving DecidableEq, Repr

/-- Source `CreateStorageClass` (volume.go lines 90 to 115), run against a
control plane holding the storage classes `scs`. Returns the resulting
storage-class list, the operation's result, and the number of Create
calls issued. When List fails, client-go still hands back an empty
item list, and the source binds the error at line 97 but never checks
it, so the loop simply sees no items. -/
def CreateStorageClass (faults : SCFaults) (scs : List StorageClass) :
    List StorageClass × Except GoErr Unit × Nat :=
  match makeStorageClass with
  | .error e => (scs, .error e, 0)
  | .ok sc =>
    let items : List StorageClass :=
      match faults.listSC with
      | some _ => []
      | none => scs
    let foundExisting := items.any (fun scExisting => scExisting.name == sc.name)
    if !foundExisting then
      match faults.createSC with
      | some e => (scs, .error e, 1)
      | none => (scs ++ [sc], .ok (), 1)
    else
      (scs, .ok (), 0)

/-- Fault schedule for `CreateVolume`: an error for the volume Create
call and one for the claim Create call, if any. -/
structure VolumeFaults where
  createPV : Option GoErr
  createPVC : Option GoErr
deriving DecidableEq, Repr

/-- Source `CreateVolume` (volume.go lines 118 to 147), run against a control
plane holding volumes `pvs` and claims `pvcs`; returns the resulting
control-plane state and the operation's result. -/
def CreateVolume (parseScheme : String → Except GoErr String)
    (faults : VolumeFaults) (uuid : String) (ds : Dataset)
    (pvs : List PersistentVolume) (pvcs : List PersistentVolumeClaim) :
    (List PersistentVolume × List PersistentVolumeClaim) × Except GoErr DatasetMount :=
  let volumeName := makePersistentVolumeName ds uuid
  match makePersistentVolume parseScheme ds volumeName with
  | .error e => ((pvs, pvcs), .error e)
  | .ok pv =>
    match faults.createPV with
    | some e => ((pvs, pvcs), .error e)
    | none =>
      let pvs1 := pvs ++ [pv]
      match makePersistentVolumeClaim ds volumeName with
      | .error e => ((pvs1, pvcs), .error e)
      | .ok pvc =>
        match faults.createPVC with
        | some e => ((pvs1, pvcs), .error e)
        | none =>
          ((pvs1, pvcs ++ [pvc]),
           .ok { dataset := ds, persistentVolume := pv, persistentVolumeClaim := pvc })

/-- The loop body of `ListVolumes` (volume.go lines 165 to 199),
iteration by iteration: for each volume with the managed prefix it
decodes the dataset labels (fresh `dataset` variable per iteration),
skipping the volume on any missing label or unparsable ID, and pairs
it with the first claim whose volume-name label matches (the inner
range variable `pvc` is a fresh instance per outer iteration and is
not written again after the break). The mount's volume field records
the iteration's volume here as a placeholder for the stored `&pv`
reference, which `ListVolumes` resolves below. -/
def listVolumesRows (pvs : List PersistentVolume)
    (pvcs : List PersistentVolumeClaim) : List DatasetMount :=
  match pvs with
  | [] => []
  | pv :: rest =>
    let tail := listVolumesRows rest pvcs
    if checkPersistentVolumeName pv then
      match lookupLabel pv.labels "dataset-id" with
      | none => tail
      | some datasetID =>
        match goParseInt64 datasetID with
        | .error _ => tail
        | .ok dsID =>
          match lookupLabel pv.labels "dataset-name" with
          | none => tail
          | some datasetName =>
            match pvcs.find? (fun pvc => pv.name == lookupLabelD pvc.labels "volume-name") with
            | none => tail
            | some pvc =>
              { dataset := { id := dsID, name := datasetName, url := "", description := "" }
                persistentVolume := pv
                persistentVolumeClaim := pvc } :: tail
    else tail

/-- Source `ListVolumes` (volume.go lines 150 to 203), run against a
control plane whose volume and claim List calls succeed and return
`pvs` and `pvcs`. The module is go 1.14, so the outer range variable
`pv` is a single variable shared by every iteration, and each appended
mount stores `&pv` (line 191): when the caller dereferences the
returned mounts, every one of them holds the loop variable's final
value — the last element of the volume list — not the volume that
passed the per-iteration checks. The selection of iterations, the
decoded dataset and the matched claim are unaffected
(`listVolumesRows`); the shared reference is resolved here. -/
def ListVolumes (pvs : List PersistentVolume)
    (pvcs : List PersistentVolumeClaim) : List DatasetMount :=
  match pvs.getLast? with
  | none => listVolumesRows pvs pvcs
  | some pvLast =>
    (listVolumesRows pvs pvcs).map (fun m => { m with persistentVolume := pvLast })

/-- Source `GetVolume` (volume.go lines 206 to 250): direct lookup by name;
the Get calls against the control plane enter as `getPV` and `getPVC`. -/
def GetVolume (getPV : String → Except GoErr PersistentVolume)
    (getPVC : String → Except GoErr PersistentVolumeClaim)
    (volumeName : String) : Except GoErr DatasetMount :=
  match getPV volumeName with
  | .error e => .error e
  | .ok pv =>
    if pv.name ≠ volumeName then
      .error ("Could not find pv with name " ++ volumeName)
    else
      match getPVC (makePersistentVolumeClaimName volumeName) with
      | .error e => .error e
      | .ok pvc =>
        if lookupLabelD pvc.labels "volume-name" ≠ volumeName then
          .error ("Could not find pvc with name " ++ volumeName)
        else
          match lookupLabel pv.labels "dataset-id" with
          | none => .error "Could not find 'dataset-id' field in a persistent volume"
          | some datasetID =>
            match goParseInt64 datasetID with
            | .error e => .error e
            | .ok dsID =>
              match lookupLabel pv.labels "dataset-name" with
              | none => .error "Could not find 'dataset-name' field in a persistent volume"
              | some datasetName =>
                .ok { dataset := { id := dsID, name := datasetName, url := "", description := "" }
                      persistentVolume := pv
                      persistentVolumeClaim := pvc }

/-- The label-decode steps of `GetVolume` (volume.go lines 227 to
243) in isolation: read the dataset-id label, parse it as an integer,
read the dataset-name label. -/
def decodeDataset (labels : List (String × String)) : Except GoErr (Int × String) :=
  match lookupLabel labels "dataset-id" with
  | none => .error "Could not find 'dataset-id' field in a persistent volume"
  | some datasetID =>
    match goParseInt64 datasetID with
    | .error e => .error e
    | .ok dsID =>
      match lookupLabel labels "dataset-name" with
      | none => .error "Could not find 'dataset-name' field in a persistent volume"
      | some datasetName => .ok (dsID, datasetName)

/-- The control-plane calls `DeleteVolume` can issue, recorded as a
trace so ordering is observable. -/
inductive CPCall where
  | deleteClaimCall (name : String)
  | deleteVolumeCall (name : String)
deriving DecidableEq, Repr

/-- Source `DeleteVolume` (volume.go lines 253 to 269): the two Delete calls
against the control plane enter as `deleteClaimRes` and
`deleteVolumeRes`; alongside the result, the trace of calls issued is
returned. -/
def DeleteVolume (deleteClaimRes : String → Except GoErr Unit)
    (deleteVolumeRes : String → Except GoErr Unit)
    (volumeName : String) : Except GoErr Unit × List CPCall :=
  let claimName := makePersistentVolumeClaimName volumeName
  match deleteClaimRes claimName with
  | .error e => (.error e, [.deleteClaimCall claimName])
  | .ok _ =>
    match deleteVolumeRes volumeName with
    | .error e => (.error e, [.deleteClaimCall claimName, .deleteVolumeCall volumeName])
    | .ok _ => (.ok (), [.deleteClaimCall claimName, .deleteVolumeCall volumeName])

/-! ## Catalog service client (pkg/catalog/catalogsvc.go)

The resty HTTP client is external; a request is modelled by the
function `server` from the request URL to either a transport error or
the decoded dataset list (`dataset.Listify` applied to the body). -/

/-- Constant `CatalogServiceURL` (catalogsvc.go line 28). -/
def CatalogServiceURL : String := "http://localhost:8080"

/-- ParcelCatalogServiceClient (catalogsvc.go lines 35 to 39); the
resty request handle is external state and carries no information the
embedded operations read. -/
structure ParcelCatalogServiceClient where
  catalogServiceURL : String
  trace : Bool
deriving DecidableEq, Repr

/-- Source `NewCatalogServiceClient` (catalogsvc.go lines 42 to 53). The Go
parameter is named `CatalogServiceURL` and therefore shadows the
package constant throughout the function body; the binder below
mirrors that shadowing. The source's error return is always nil. -/
def NewCatalogServiceClient (CatalogServiceURL : String) (trace : Bool) :
    ParcelCatalogServiceClient :=
  let serviceURL := CatalogServiceURL
  let serviceURL := if 0 < CatalogServiceURL.length then CatalogServiceURL else serviceURL
  { catalogServiceURL := serviceURL, trace := trace }

/-- Go `strings.TrimRight(s, "/")`. -/
def goTrimRightSlash (s : String) : String :=
  ⟨(s.data.reverse.dropWhile (fun c => c == '/')).reverse⟩

/-- Source `makeRequestPath` (catalogsvc.go lines 156 to 164). -/
def makeRequestPath (requestRoot : String) (path : String) : String :=
  if "/".data.isSuffixOf requestRoot.data && "/".data.isPrefixOf path.data then
    goTrimRightSlash requestRoot ++ path
  else if !("/".data.isSuffixOf requestRoot.data) && !("/".data.isPrefixOf path.data) then
    requestRoot ++ "/" ++ path
  else
    requestRoot ++ path

/-- Source `GetAllDatasets` (catalogsvc.go lines 100 to 112): note the
request URL is built from the package constant `CatalogServiceURL` at
line 101, not from the client's stored field. -/
def GetAllDatasets (server : String → Except GoErr (List Dataset))
    (client : ParcelCatalogServiceClient) : Except GoErr (List Dataset) :=
  let requestURL := makeRequestPath CatalogServiceURL "/datasets"
  match server requestURL with
  | .error e => .error e
  | .ok datasets => .ok datasets

/-- Source `SearchDatasets` (catalogsvc.go lines 115 to 131); the keyword
match `ds.ContainsKeywords` lives in the external dataset package and
enters as `containsKeywords`. On a fetch error the source calls
`log.Fatal`, aborting the process with that error; the abort is
modelled as the error outcome. -/
def SearchDatasets (containsKeywords : Dataset → List String → Bool)
    (server : String → Except GoErr (List Dataset))
    (client : ParcelCatalogServiceClient) (keywords : List String) :
    Except GoErr (List Dataset) :=
  match GetAllDatasets server client with
  | .error e => .error e
  | .ok datasets => .ok (datasets.filter (fun ds => containsKeywords ds keywords))

/-- Source `SelectDatasets` (catalogsvc.go lines 134 to 154); the inner loop
with break keeps a dataset as soon as one requested id matches its
formatted ID. On a fetch error the source calls `log.Fatal`, aborting
the process with that error; the abort is modelled as the error
outcome. -/
def SelectDatasets (server : String → Except GoErr (List Dataset))
    (client : ParcelCatalogServiceClient) (ids : List String) :
    Except GoErr (List Dataset) :=
  match GetAllDatasets server client with
  | .error e => .error e
  | .ok datasets =>
    .ok (datasets.filter (fun ds => ids.any (fun id => goFormatInt64 ds.id == id)))

/-! ## Spec-side predicates

Definitions written from the spec's words, for comparison with the
embedded code. -/

/-- The fault-free control plane: both calls of `CreateStorageClass`
succeed. -/
def noSCFaults : SCFaults := { listSC := none, createSC := none }

/-- The managed storage class object `makeStorageClass` builds. -/
def managedSC : StorageClass :=
  { name := csiDriverStorageClassName, provisioner := csiDriverName }

/-- The number of storage classes carrying the reserved managed name. -/
def countManagedSC (scs : List StorageClass) : Nat :=
  (scs.filter (fun sc => sc.name == csiDriverStorageClassName)).length

/-- Concrete control-plane objects for exhibiting the range-variable
aliasing in `ListVolumes`: a managed volume with decodable dataset
labels. -/
def pvManaged : PersistentVolume :=
  { name := "parcel-pv-x-a"
    labels := [("volume-name", "parcel-pv-x-a"), ("dataset-id", "7"), ("dataset-name", "x")]
    capacity := "5Gi"
    accessModes := ["ReadWriteMany"]
    reclaimPolicy := "Retain"
    storageClassName := csiDriverStorageClassName
    csiDriver := csiDriverName
    csiVolumeHandle := "parcel-pv-x-a-handle"
    csiVolumeAttributes := [] }

/-- The claim bound to `pvManaged` by its volume-name label. -/
def pvcManaged : PersistentVolumeClaim :=
  { name := "parcel-pv-x-a-claim"
    labels := [("volume-name", "parcel-pv-x-a"), ("dataset-id", "7"), ("dataset-name", "x")]
    accessModes := ["ReadWriteMany"]
    storageClassName := csiDriverStorageClassName
    selectorMatchLabels := []
    requestStorage := "5Gi" }

/-- An unmanaged volume (no `parcel-pv-` prefix, no labels), placed
last in the volume list. -/
def pvUnmanaged : PersistentVolume :=
  { name := "other-pv"
    labels := []
    capacity := "5Gi"
    accessModes := ["ReadWriteMany"]
    reclaimPolicy := "Retain"
    storageClassName := csiDriverStorageClassName
    csiDriver := csiDriverName
    csiVolumeHandle := "other-pv-handle"
    csiVolumeAttributes := [] }

/-- Spec-side condition from claim C9: the checks `GetVolume` must
pass to return a mount — the control plane yields a volume of exactly
the requested name, the claim named after the volume exists and its
volume-name label (Go map read, empty when absent) equals the volume
name, and the volume labels hold a parsable dataset-id and a
dataset-name. -/
def getVolumeChecks (getPV : String → Except GoErr PersistentVolume)
    (getPVC : String → Except GoErr PersistentVolumeClaim)
    (volumeName : String) : Prop :=
  ∃ pv, getPV volumeName = .ok pv ∧ pv.name = volumeName
    ∧ (∃ pvc, getPVC (makePersistentVolumeClaimName volumeName) = .ok pvc
        ∧ lookupLabelD pvc.labels "volume-name" = volumeName)
    ∧ (∃ s, lookupLabel pv.labels "dataset-id" = some s ∧ ∃ i, goParseInt64 s = .ok i)
    ∧ (∃ s, lookupLabel pv.labels "dataset-name" = some s)

/-! ## Shared lemmas: the decimal codec -/

theorem digitVal_digitChar {d : Nat} (h : d < 10) : digitVal (digitChar d) = d := by
  interval_cases d <;> rfl

theorem isDigitChar_digitChar {d : Nat} (h : d < 10) : isDigitChar (digitChar d) = true := by
  interval_cases d <;> rfl

theorem goFormatNat_ne_nil (n : Nat) : goFormatNat n ≠ [] := by
  rw [goFormatNat]
  split <;> simp

theorem goFormatNat_all_digits (n : Nat) : ∀ c ∈ goFormatNat n, isDigitChar c = true := by
  induction n using Nat.strong_induction_on with
  | _ n ih =>
    intro c hc
    rw [goFormatNat] at hc
    split at hc
    · simp at hc
      subst hc
      exact isDigitChar_digitChar (by omega)
    · rename_i h
      rcases List.mem_append.mp hc with hc1 | hc2
      · exact ih (n / 10) (Nat.div_lt_self (by omega) (by norm_num)) c hc1
      · simp at hc2
        subst hc2
        exact isDigitChar_digitChar (Nat.mod_lt n (by norm_num))

theorem digitsVal_goFormatNat (n : Nat) : digitsVal (goFormatNat n) = n := by
  induction n using Nat.strong_induction_on with
  | _ n ih =>
    rw [goFormatNat]
    split
    · rename_i h
      simp [digitsVal, digitVal_digitChar h]
    · rename_i h
      have hlt : n / 10 < n := Nat.div_lt_self (by omega) (by norm_num)
      simp only [digitsVal, List.foldl_append, List.foldl_cons, List.foldl_nil]
      have := ih (n / 10) hlt
      simp only [digitsVal] at this
      rw [this, digitVal_digitChar (Nat.mod_lt n (by norm_num))]
      omega

theorem parseDigits_goFormatNat (n : Nat) : parseDigits (goFormatNat n) = some n := by
  have hne := goFormatNat_ne_nil n
  have hall : (goFormatNat n).all isDigitChar = true :=
    List.all_eq_true.mpr (fun c hc => goFormatNat_all_digits n c hc)
  rw [parseDigits, if_neg (by simpa using hne), if_pos hall, digitsVal_goFormatNat]

theorem isDigitChar_not_minus {c : Char} (h : isDigitChar c = true) : (c == '-') = false := by
  by_cases hc : c = '-'
  · subst hc
    simp [isDigitChar] at h
  · simpa using hc

theorem isDigitChar_not_plus {c : Char} (h : isDigitChar c = true) : (c == '+') = false := by
  by_cases hc : c = '+'
  · subst hc
    simp [isDigitChar] at h
  · simpa using hc

theorem goParseInt64_neg_digits (n : Nat) (hn : n ≤ 2 ^ 63) :
    goParseInt64 ⟨'-' :: goFormatNat n⟩ = .ok (-(n : Int)) := by
  rw [goParseInt64]
  simp [parseDigits_goFormatNat]
  omega

theorem goParseInt64_pos_digits (n : Nat) (hn : n < 2 ^ 63) :
    goParseInt64 ⟨goFormatNat n⟩ = .ok (n : Int) := by
  obtain ⟨c, cs, hcons⟩ : ∃ c cs, goFormatNat n = c :: cs := by
    cases hg : goFormatNat n with
    | nil => exact absurd hg (goFormatNat_ne_nil n)
    | cons c cs => exact ⟨c, cs, rfl⟩
  have hcd : isDigitChar c = true :=
    goFormatNat_all_digits n c (by rw [hcons]; exact List.mem_cons_self c cs)
  have hparse := parseDigits_goFormatNat n
  rw [hcons] at hparse
  rw [hcons, goParseInt64]
  simp [isDigitChar_not_minus hcd, isDigitChar_not_plus hcd, hparse]
  omega

theorem goParseInt64_goFormatInt64 (i : Int) (hlo : -(2 ^ 63) ≤ i) (hhi : i < 2 ^ 63) :
    goParseInt64 (goFormatInt64 i) = .ok i := by
  by_cases hneg : i < 0
  · rw [goFormatInt64, if_pos hneg, goParseInt64_neg_digits i.natAbs (by omega)]
    congr 1
    omega
  · rw [goFormatInt64, if_neg hneg, goParseInt64_pos_digits i.toNat (by omega)]
    congr 1
    omega

/-! ## Claim C7 -/

/-- C7: round-trip of the label codec — decoding the label set
produced by `makeLabels` (reading the dataset-id label, parsing it as
an integer, and reading the dataset-name label, as `GetVolume` does)
recovers exactly the dataset's numeric ID and name, for every dataset
whose ID is a 64-bit signed integer and every volume name. -/
theorem claimC7_labelRoundTrip (ds : Dataset) (v : String)
    (hlo : -(2 ^ 63) ≤ ds.id) (hhi : ds.id < 2 ^ 63) :
    decodeDataset (makeLabels ds v) = .ok (ds.id, ds.name) := by
  have h1 : lookupLabel (makeLabels ds v) "dataset-id" = some (goFormatInt64 ds.id) := by
    simp [makeLabels, lookupLabel, List.find?]
  have h2 : lookupLabel (makeLabels ds v) "dataset-name" = some ds.name := by
    simp [makeLabels, lookupLabel, List.find?]
  simp only [decodeDataset, h1, h2, goParseInt64_goFormatInt64 ds.id hlo hhi]

/-- C7 witness: the round-trip evaluated at a concrete dataset and
volume name. -/
theorem claimC7_labelRoundTrip_witness :
    (-(2 ^ 63) ≤ (42 : Int) ∧ (42 : Int) < 2 ^ 63)
    ∧ decodeDataset
        (makeLabels { id := 42, name := "Plant Genomes!", url := "irods://host/path",
                      description := "" } "parcel-pv-PlantGenomes-abc")
      = .ok (42, "Plant Genomes!") :=
  ⟨⟨by norm_num, by norm_num⟩,
   claimC7_labelRoundTrip
     { id := 42, name := "Plant Genomes!", url := "irods://host/path", description := "" }
     "parcel-pv-PlantGenomes-abc" (by norm_num) (by norm_num)⟩

/-! ## Claim C1 -/

/-- C1 counterexample: with a control plane whose claim delete fails
(`BackendError`) and whose volume delete would succeed,
`DeleteVolume "v1"` reports the claim-delete error but never issues
the volume delete — refuting the claim's best-effort continuation. -/
theorem claimC1_counterexample :
    (DeleteVolume (fun _ => .error "BackendError") (fun _ => .ok ()) "v1").1
        = .error "BackendError"
    ∧ CPCall.deleteVolumeCall "v1" ∉
        (DeleteVolume (fun _ => .error "BackendError") (fun _ => .ok ()) "v1").2 := by
  exact ⟨rfl, by decide⟩

/-- C1 (amended): `DeleteVolume` first issues the delete of the claim
named `claim_name_for(v)`; the volume delete is issued exactly when
the claim delete succeeded. If the claim delete fails, the operation
returns that error without attempting the volume delete; if the claim
delete succeeds and the volume delete fails, that error is returned. -/
theorem claimC1_deleteOrder (deleteClaimRes deleteVolumeRes : String → Except GoErr Unit)
    (v : String) :
    ((DeleteVolume deleteClaimRes deleteVolumeRes v).2
        = [.deleteClaimCall (makePersistentVolumeClaimName v)]
      ∨ (DeleteVolume deleteClaimRes deleteVolumeRes v).2
        = [.deleteClaimCall (makePersistentVolumeClaimName v), .deleteVolumeCall v])
    ∧ (CPCall.deleteVolumeCall v ∈ (DeleteVolume deleteClaimRes deleteVolumeRes v).2
        ↔ deleteClaimRes (makePersistentVolumeClaimName v) = .ok ())
    ∧ (∀ e, deleteClaimRes (makePersistentVolumeClaimName v) = .error e →
        (DeleteVolume deleteClaimRes deleteVolumeRes v).1 = .error e
          ∧ CPCall.deleteVolumeCall v ∉ (DeleteVolume deleteClaimRes deleteVolumeRes v).2)
    ∧ (∀ e, deleteClaimRes (makePersistentVolumeClaimName v) = .ok () →
        deleteVolumeRes v = .error e →
        (DeleteVolume deleteClaimRes deleteVolumeRes v).1 = .error e) := by
  cases hc : deleteClaimRes (makePersistentVolumeClaimName v) with
  | error e =>
    have hd : DeleteVolume deleteClaimRes deleteVolumeRes v
        = (.error e, [.deleteClaimCall (makePersistentVolumeClaimName v)]) := by
      simp [DeleteVolume, hc]
    refine ⟨Or.inl (by rw [hd]), by rw [hd]; simp, ?_, ?_⟩
    · intro e' he'
      injection he' with h
      subst h
      rw [hd]
      exact ⟨rfl, by simp⟩
    · intro e' he'
      simp at he'
  | ok u =>
    cases u
    cases hv : deleteVolumeRes v with
    | error e =>
      have hd : DeleteVolume deleteClaimRes deleteVolumeRes v
          = (.error e, [.deleteClaimCall (makePersistentVolumeClaimName v),
                        .deleteVolumeCall v]) := by
        simp [DeleteVolume, hc, hv]
      refine ⟨Or.inr (by rw [hd]), by rw [hd]; simp, ?_, ?_⟩
      · intro e' he'
        simp at he'
      · intro e' _ he'
        injection he' with h
        subst h
        rw [hd]
    | ok w =>
      cases w
      have hd : DeleteVolume deleteClaimRes deleteVolumeRes v
          = (.ok (), [.deleteClaimCall (makePersistentVolumeClaimName v),
                      .deleteVolumeCall v]) := by
        simp [DeleteVolume, hc, hv]
      refine ⟨Or.inr (by rw [hd]), by rw [hd]; simp, ?_, ?_⟩
      · intro e' he'
        simp at he'
      · intro e' _ he'
        simp at he'

/-- C1 witness: the amended behaviour evaluated at a concrete failing
claim delete. -/
theorem claimC1_deleteOrder_witness :
    (DeleteVolume (fun _ => .error "E") (fun _ => .ok ()) "vol").1 = .error "E"
    ∧ CPCall.deleteVolumeCall "vol" ∉
        (DeleteVolume (fun _ => .error "E") (fun _ => .ok ()) "vol").2 :=
  (claimC1_deleteOrder (fun _ => .error "E") (fun _ => .ok ()) "vol").2.2.1 "E" rfl

/-! ## Claims C2 and C3 -/

/-- One fault-free `CreateStorageClass` call in closed form: skip if a
storage class with the reserved name exists, otherwise append the
managed one. -/
theorem createStorageClass_noFaults (scs : List StorageClass) :
    CreateStorageClass noSCFaults scs =
      if scs.any (fun sc => sc.name == csiDriverStorageClassName) then (scs, .ok (), 0)
      else (scs ++ [managedSC], .ok (), 1) := by
  by_cases h : scs.any (fun sc => sc.name == csiDriverStorageClassName)
  · simp [CreateStorageClass, makeStorageClass, noSCFaults, managedSC, h]
  · simp [CreateStorageClass, makeStorageClass, noSCFaults, managedSC, h]

/-- A storage-class list has an entry with the reserved name exactly
when the managed count is positive. -/
theorem any_managed_iff_countManagedSC (scs : List StorageClass) :
    scs.any (fun sc => sc.name == csiDriverStorageClassName) = true
      ↔ 0 < countManagedSC scs := by
  rw [countManagedSC, List.length_pos]
  constructor
  · intro h
    obtain ⟨sc, hmem, hname⟩ := List.any_eq_true.mp h
    intro hnil
    exact List.not_mem_nil sc (hnil ▸ List.mem_filter.mpr ⟨hmem, hname⟩)
  · intro h
    obtain ⟨sc, hmem⟩ := List.exists_mem_of_ne_nil _ h
    exact List.any_eq_true.mpr ⟨sc, (List.mem_filter.mp hmem).1, (List.mem_filter.mp hmem).2⟩

/-- Appending the managed storage class raises the managed count by
one. -/
theorem countManagedSC_append (scs : List StorageClass) :
    countManagedSC (scs ++ [managedSC]) = countManagedSC scs + 1 := by
  simp [countManagedSC, managedSC, List.filter_append]

/-- C2: `CreateStorageClass` is idempotent — against a fault-free
control plane holding at most one storage class with the reserved
name, it issues at most one create call, creating exactly when no
storage class with that name exists, and two sequential invocations
leave exactly one storage class with the reserved name. -/
theorem claimC2_idempotent (scs : List StorageClass) (h : countManagedSC scs ≤ 1) :
    (CreateStorageClass noSCFaults scs).2.2 ≤ 1
    ∧ (CreateStorageClass noSCFaults scs).2.2
        = (if scs.any (fun sc => sc.name == csiDriverStorageClassName) then 0 else 1)
    ∧ (CreateStorageClass noSCFaults ((CreateStorageClass noSCFaults scs).1)).2.2 ≤ 1
    ∧ countManagedSC
        ((CreateStorageClass noSCFaults ((CreateStorageClass noSCFaults scs).1)).1) = 1 := by
  by_cases h1 : scs.any (fun sc => sc.name == csiDriverStorageClassName) = true
  · have hcount : 0 < countManagedSC scs := (any_managed_iff_countManagedSC scs).mp h1
    have e1 : CreateStorageClass noSCFaults scs = (scs, .ok (), 0) := by
      rw [createStorageClass_noFaults scs, if_pos h1]
    have e2 : (CreateStorageClass noSCFaults scs).1 = scs := by rw [e1]
    refine ⟨?_, ?_, ?_, ?_⟩
    · rw [e1]
      exact Nat.zero_le 1
    · rw [e1, if_pos h1]
    · rw [e2, e1]
      exact Nat.zero_le 1
    · rw [e2, e2]
      omega
  · have hcount : countManagedSC scs = 0 := by
      rcases Nat.eq_zero_or_pos (countManagedSC scs) with h0 | hpos
      · exact h0
      · exact absurd ((any_managed_iff_countManagedSC scs).mpr hpos) h1
    have e1 : CreateStorageClass noSCFaults scs = (scs ++ [managedSC], .ok (), 1) := by
      rw [createStorageClass_noFaults scs, if_neg h1]
    have e2 : (CreateStorageClass noSCFaults scs).1 = scs ++ [managedSC] := by
      rw [e1]
    have h2 : (scs ++ [managedSC]).any
        (fun sc => sc.name == csiDriverStorageClassName) = true := by
      refine (any_managed_iff_countManagedSC _).mpr ?_
      rw [countManagedSC_append]
      omega
    have e3 : CreateStorageClass noSCFaults (scs ++ [managedSC])
        = (scs ++ [managedSC], .ok (), 0) := by
      rw [createStorageClass_noFaults, if_pos h2]
    refine ⟨?_, ?_, ?_, ?_⟩
    · rw [e1]
    · rw [e1, if_neg h1]
    · rw [e2, e3]
      exact Nat.zero_le 1
    · rw [e2, e3]
      show countManagedSC (scs ++ [managedSC]) = 1
      rw [countManagedSC_append]
      omega

/-- C2 witness: the idempotence conclusion evaluated at the empty
control plane. -/
theorem claimC2_idempotent_witness :
    countManagedSC ([] : List StorageClass) ≤ 1
    ∧ ((CreateStorageClass noSCFaults []).2.2 ≤ 1
      ∧ (CreateStorageClass noSCFaults []).2.2
          = (if ([] : List StorageClass).any
                (fun sc => sc.name == csiDriverStorageClassName) then 0 else 1)
      ∧ (CreateStorageClass noSCFaults ((CreateStorageClass noSCFaults []).1)).2.2 ≤ 1
      ∧ countManagedSC
          ((CreateStorageClass noSCFaults ((CreateStorageClass noSCFaults []).1)).1) = 1) :=
  ⟨by decide, claimC2_idempotent [] (by decide)⟩

/-- C3: the code contradicts the claim — the storage-class List error
is bound at volume.go line 97 but never checked, so with a control
plane whose List call fails (while the managed storage class in fact
already exists) and whose Create call succeeds, `CreateStorageClass`
issues a create and returns success, swallowing the List failure
instead of propagating it. -/
theorem claimC3_listErrorSwallowed :
    (CreateStorageClass { listSC := some "BackendError", createSC := none }
        [{ name := "parcel-sc", provisioner := "parcel.csi.iychoi" }]).2.1 = .ok ()
    ∧ (CreateStorageClass { listSC := some "BackendError", createSC := none }
        [{ name := "parcel-sc", provisioner := "parcel.csi.iychoi" }]).2.2 = 1 :=
  ⟨rfl, rfl⟩

/-! ## Claim C4 -/

/-- C4: `CreateVolume` is not atomic — when the volume create call
succeeds and the claim create call fails, the operation returns the
claim-create error, the created volume stays on the control plane, the
claim list is unchanged (in particular no claim references the new
volume if none did before), and no rollback happens; on success it
returns the dataset with the created volume and claim, both now on
the control plane. -/
theorem claimC4_createNotAtomic (parseScheme : String → Except GoErr String)
    (uuid : String) (ds : Dataset)
    (pvs : List PersistentVolume) (pvcs : List PersistentVolumeClaim)
    (pv : PersistentVolume)
    (hpv : makePersistentVolume parseScheme ds (makePersistentVolumeName ds uuid) = .ok pv) :
    (∀ e, CreateVolume parseScheme { createPV := none, createPVC := some e } uuid ds pvs pvcs
        = ((pvs ++ [pv], pvcs), .error e))
    ∧ (∀ e, (∀ pvc0 ∈ pvcs,
          lookupLabelD pvc0.labels "volume-name" ≠ makePersistentVolumeName ds uuid) →
        ∀ pvc0 ∈ (CreateVolume parseScheme { createPV := none, createPVC := some e }
            uuid ds pvs pvcs).1.2,
          lookupLabelD pvc0.labels "volume-name" ≠ makePersistentVolumeName ds uuid)
    ∧ (∃ pvc, makePersistentVolumeClaim ds (makePersistentVolumeName ds uuid) = .ok pvc
        ∧ CreateVolume parseScheme { createPV := none, createPVC := none } uuid ds pvs pvcs
            = ((pvs ++ [pv], pvcs ++ [pvc]),
               .ok { dataset := ds, persistentVolume := pv, persistentVolumeClaim := pvc })) := by
  have e1 : ∀ e, CreateVolume parseScheme { createPV := none, createPVC := some e }
      uuid ds pvs pvcs = ((pvs ++ [pv], pvcs), .error e) := by
    intro e
    simp [CreateVolume, hpv, makePersistentVolumeClaim]
  refine ⟨e1, ?_, ?_⟩
  · intro e hnone pvc0 hmem
    rw [e1 e] at hmem
    exact hnone pvc0 hmem
  · refine ⟨_, rfl, ?_⟩
    simp [CreateVolume, hpv, makePersistentVolumeClaim]

/-- C4 witness: the partial-failure branch evaluated at a concrete
dataset with a recognised scheme. -/
theorem claimC4_createNotAtomic_witness :
    (CreateVolume (fun _ => .ok "irods") { createPV := none, createPVC := some "E" } "u"
        { id := 42, name := "pg", url := "irods://h/p", description := "" } [] []).2
      = .error "E" := by
  have h := claimC4_createNotAtomic (fun _ => .ok "irods") "u"
      { id := 42, name := "pg", url := "irods://h/p", description := "" } [] [] _ rfl
  rw [h.1 "E"]

/-! ## Claim C6 -/

/-- C6: the scheme resolver is total on the parse outcome — it
returns the WebDAV driver identifier exactly when the URL parses with
a scheme lowering to webdav, davfs, http or https; the FUSE driver
identifier exactly when the scheme lowers to irods; any successful
result is one of those two identifiers (no default driver); and a URL
that fails to parse yields an error. -/
theorem claimC6_schemeResolver (parseScheme : String → Except GoErr String) (ds : Dataset) :
    (getClient parseScheme ds = .ok "webdav"
      ↔ ∃ s, parseScheme ds.url = .ok s
          ∧ (goToLower s = "webdav" ∨ goToLower s = "davfs"
             ∨ goToLower s = "http" ∨ goToLower s = "https"))
    ∧ (getClient parseScheme ds = .ok "irodsfuse"
      ↔ ∃ s, parseScheme ds.url = .ok s ∧ goToLower s = "irods")
    ∧ (∀ r, getClient parseScheme ds = .ok r → r = "webdav" ∨ r = "irodsfuse")
    ∧ (∀ e, parseScheme ds.url = .error e → ∃ e2, getClient parseScheme ds = .error e2) := by
  cases hp : parseScheme ds.url with
  | error e =>
    refine ⟨?_, ?_, ?_, ?_⟩
    · simp [getClient, hp]
    · simp [getClient, hp]
    · intro r hr
      simp [getClient, hp] at hr
    · intro e' _
      exact ⟨"could not parse URL: " ++ e, by simp [getClient, hp]⟩
  | ok s =>
    simp only [getClient, hp]
    split_ifs with h1 h2 h3 h4 h5 <;> simp_all

/-- C6 witness: the resolver evaluated on an upper-case irods
scheme. -/
theorem claimC6_schemeResolver_witness :
    getClient (fun _ => .ok "IRODS")
      { id := 1, name := "d", url := "irods://host/path", description := "" }
      = .ok "irodsfuse" :=
  (claimC6_schemeResolver (fun _ => .ok "IRODS")
      { id := 1, name := "d", url := "irods://host/path", description := "" }).2.1.mpr
    ⟨"IRODS", rfl, by decide⟩

/-! ## Claim C8 -/

/-- Every character of the shortuuid alphabet is Go-alphanumeric. -/
theorem shortuuidAlphabet_alnum : ∀ c ∈ shortuuidAlphabet, isGoAlnum c = true := by
  decide

/-- C8: every name `makePersistentVolumeName` produces is the fixed
prefix, then the dataset name with all non-alphanumeric characters
stripped, then a dash and the suffix; for a suffix drawn from the
shortuuid alphabet every character lies in `[A-Za-z0-9-]`, and
`checkPersistentVolumeName` accepts every such name. -/
theorem claimC8_volumeNameShape (ds : Dataset) (uuid : String)
    (h : ∀ c ∈ uuid.data, c ∈ shortuuidAlphabet) :
    (makePersistentVolumeName ds uuid).data
        = "parcel-pv-".data ++ (ds.name.data.filter isGoAlnum ++ '-' :: uuid.data)
    ∧ (∀ c ∈ (makePersistentVolumeName ds uuid).data, isGoAlnum c = true ∨ c = '-')
    ∧ (∀ pv : PersistentVolume, pv.name = makePersistentVolumeName ds uuid →
        checkPersistentVolumeName pv = true) := by
  have hshape : (makePersistentVolumeName ds uuid).data
      = "parcel-pv-".data ++ (ds.name.data.filter isGoAlnum ++ '-' :: uuid.data) := by
    simp [makePersistentVolumeName, sanitizeDatasetName, String.data_append]
  refine ⟨hshape, ?_, ?_⟩
  · intro c hc
    rw [hshape] at hc
    rcases List.mem_append.mp hc with hc1 | hc2
    · have hlit : ∀ c ∈ "parcel-pv-".data, isGoAlnum c = true ∨ c = '-' := by decide
      exact hlit c hc1
    · rcases List.mem_append.mp hc2 with hc3 | hc4
      · exact Or.inl (List.of_mem_filter hc3)
      · rcases List.mem_cons.mp hc4 with hc5 | hc6
        · exact Or.inr hc5
        · exact Or.inl (shortuuidAlphabet_alnum c (h c hc6))
  · intro pv hname
    rw [checkPersistentVolumeName, hname]
    exact List.isPrefixOf_iff_prefix.mpr (hshape ▸ List.prefix_append _ _)

/-- C8 witness: the character-class conclusion evaluated at a concrete
dataset and suffix. -/
theorem claimC8_volumeNameShape_witness :
    (∀ c ∈ "abc".data, c ∈ shortuuidAlphabet)
    ∧ (∀ c ∈ (makePersistentVolumeName
          { id := 42, name := "Plant Genomes!", url := "irods://h/p", description := "" }
          "abc").data, isGoAlnum c = true ∨ c = '-') :=
  ⟨by decide,
   (claimC8_volumeNameShape
      { id := 42, name := "Plant Genomes!", url := "irods://h/p", description := "" }
      "abc" (by decide)).2.1⟩

/-! ## Claim C10 -/

/-- C10: the catalog client stores the constructor's URL argument but
never uses it — `GetAllDatasets` builds its request from the
package-level constant `CatalogServiceURL`, and `SearchDatasets` and
`SelectDatasets`, which go through `GetAllDatasets`, behave
identically whatever URL the client was constructed with. -/
theorem claimC10_requestsUseConstant (u : String) (t : Bool)
    (server : String → Except GoErr (List Dataset))
    (containsKeywords : Dataset → List String → Bool)
    (keywords ids : List String) :
    (NewCatalogServiceClient u t).catalogServiceURL = u
    ∧ makeRequestPath CatalogServiceURL "/datasets" = "http://localhost:8080/datasets"
    ∧ GetAllDatasets server (NewCatalogServiceClient u t)
        = server "http://localhost:8080/datasets"
    ∧ SearchDatasets containsKeywords server (NewCatalogServiceClient u t) keywords
        = SearchDatasets containsKeywords server
            (NewCatalogServiceClient CatalogServiceURL t) keywords
    ∧ SelectDatasets server (NewCatalogServiceClient u t) ids
        = SelectDatasets server (NewCatalogServiceClient CatalogServiceURL t) ids := by
  have hurl : makeRequestPath CatalogServiceURL "/datasets"
      = "http://localhost:8080/datasets" := by decide
  refine ⟨?_, hurl, ?_, rfl, rfl⟩
  · simp [NewCatalogServiceClient]
  · simp only [GetAllDatasets, hurl]
    cases hs : server "http://localhost:8080/datasets" <;> simp

/-! ## Claim C5 -/

/-- C5: the code contradicts the claim. Under go 1.14 range semantics
the source stores `&pv` of the shared outer loop variable (volume.go
line 191), so every returned mount's volume field resolves to the loop
variable's final value — the last element of the volume list. With the
managed volume `pvManaged` (dataset 7, matching claim) listed before
the unmanaged volume `pvUnmanaged`, the call returns exactly one mount
whose dataset and claim are the ones decoded for `pvManaged`, yet
whose volume is `pvUnmanaged` — a volume failing every condition of
the claim — where the claim requires the mount to carry the managed
volume that passed the filter. -/
theorem claimC5_rangeAliasBug :
    (ListVolumes [pvManaged, pvUnmanaged] [pvcManaged]).map (fun m => m.dataset.id) = [7]
    ∧ (ListVolumes [pvManaged, pvUnmanaged] [pvcManaged]).map
        (fun m => m.persistentVolumeClaim) = [pvcManaged]
    ∧ (ListVolumes [pvManaged, pvUnmanaged] [pvcManaged]).map
        (fun m => m.persistentVolume) = [pvUnmanaged]
    ∧ checkPersistentVolumeName pvUnmanaged = false
    ∧ checkPersistentVolumeName pvManaged = true := by
  refine ⟨rfl, rfl, rfl, rfl, rfl⟩


/-! ## Claim C9 -/

/-- C9: `GetVolume` returns a mount exactly when every check passes —
the control plane yields a volume of exactly the requested name, the
claim named `claim_name_for(v)` exists with a volume-name label equal
to `v`, and the volume labels hold a dataset-id that parses as an
integer and a dataset-name; in every other case it returns an error. -/
theorem claimC9_getVolumeIff (getPV : String → Except GoErr PersistentVolume)
    (getPVC : String → Except GoErr PersistentVolumeClaim) (v : String) :
    (∃ m, GetVolume getPV getPVC v = .ok m) ↔ getVolumeChecks getPV getPVC v := by
  cases hpv : getPV v with
  | error e => simp [GetVolume, getVolumeChecks, hpv]
  | ok pv =>
    by_cases hname : pv.name = v
    · cases hpvc : getPVC (makePersistentVolumeClaimName v) with
      | error e => simp [GetVolume, getVolumeChecks, hpv, hpvc, hname]
      | ok pvc =>
        by_cases hvl : lookupLabelD pvc.labels "volume-name" = v
        · cases hid : lookupLabel pv.labels "dataset-id" with
          | none => simp [GetVolume, getVolumeChecks, hpv, hpvc, hname, hvl, hid]
          | some s =>
            cases hparse : goParseInt64 s with
            | error e =>
              simp [GetVolume, getVolumeChecks, hpv, hpvc, hname, hvl, hid, hparse]
            | ok i =>
              cases hdn : lookupLabel pv.labels "dataset-name" with
              | none =>
                simp [GetVolume, getVolumeChecks, hpv, hpvc, hname, hvl, hid, hparse, hdn]
              | some nm =>
                simp [GetVolume, getVolumeChecks, hpv, hpvc, hname, hvl, hid, hparse, hdn]
        · simp [GetVolume, getVolumeChecks, hpv, hpvc, hname, hvl]
    · simp [GetVolume, getVolumeChecks, hpv, hname]

end Parcel
